import Mathlib

/-!
Verification of the `youtube_to_spotify` script (src/youtube_to_spotify.py).

The script is embedded shallowly: every HTTP endpoint the script talks to is a
field of a `Sys` record mapping the request parameters to the (typed) JSON
response, and each Python function becomes a Lean function over `Sys` that
returns its value together with the list of HTTP requests it issued, in order.
Python exceptions (IndexError, KeyError, UnboundLocalError, SystemExit) are
modelled with `Except PyErr`.  The unbounded `while` loop of
`_youtube_get_tracks` is given explicit fuel; `none` means the fuel ran out.
-/

/-- Python exceptions and exits that the script can produce. -/
inductive PyErr : Type where
  | indexError : PyErr
  | keyError : PyErr
  | unboundLocal : PyErr
  | systemExit : Int → PyErr
deriving DecidableEq

/-- One entry of a `playlistItems` response: the script only reads
`item["snippet"]["title"]`. -/
structure TrackItem : Type where
  snippetTitle : String
deriving DecidableEq

/-- One entry of a `playlists` response: the script only reads
`item["snippet"]["title"]`. -/
structure PlaylistMeta : Type where
  snippetTitle : String
deriving DecidableEq

/-- Response of the YouTube `playlists` endpoint (field `items`). -/
structure YtPlaylistsResp : Type where
  items : List PlaylistMeta
deriving DecidableEq

/-- Response of the YouTube `playlistItems` endpoint: field `items` and the
optional `nextPageToken` (absent key modelled as `none`). -/
structure YtItemsResp : Type where
  items : List TrackItem
  nextPageToken : Option String
deriving DecidableEq

/-- One entry of a Spotify search response: the script only reads `uri`. -/
structure SearchItem : Type where
  uri : String
deriving DecidableEq

/-- One HTTP request issued by the script, with the parameters that the code
splices into the URL or body. -/
inductive Event : Type where
  | ytPlaylists : String → String → Event
  | ytPlaylistItems : String → String → Option String → Event
  | spSearch : String → Event
  | spMe : Event
  | spCreate : String → String → Event
  | spAdd : String → List String → Event
deriving DecidableEq

/-- The environment of the script: `os.getenv` plus the responses of the five
remote endpoints it consumes.  Responses are functions of the request
parameters the code sends. -/
structure Sys : Type where
  getenv : String → Option String
  playlists : String → String → YtPlaylistsResp
  playlistItems : String → String → Option String → YtItemsResp
  searchTracks : String → List SearchItem
  meId : String
  createPlaylistId : String

/-- The parsed command line (`argparse`): the positional `youtube_playlist`
argument and the optional name flag (absent flag is `None`). -/
structure Args : Type where
  youtube_playlist : String
  name : Option String
deriving DecidableEq

/-! ## URL parsing (`_youtube_get_playlist_id`, lines 93-99)

`urllib.parse.urlparse(s).query` and `urllib.parse.parse_qs` are modelled on
`List Char`.  `urlparse` cuts the fragment at the first `#`, then the query is
everything after the first `?` of what remains.  `parse_qs` splits the query on
`&`, splits each field at its first `=`, drops fields without `=` and fields
with an empty value (default `keep_blank_values=False`), percent-decodes with
`unquote_plus`, and groups values by key preserving order. -/

/-- `str.startswith` on character lists. -/
def startsWithL : List Char → List Char → Bool
  | [], _ => true
  | _ :: _, [] => false
  | p :: ps, c :: cs => p == c && startsWithL ps cs

/-- Split a character list at the first occurrence of `sep`:
`some (before, after)`, or `none` when `sep` does not occur. -/
def cutFirst (sep : Char) : List Char → Option (List Char × List Char)
  | [] => none
  | c :: cs =>
    if c == sep then some ([], cs)
    else
      match cutFirst sep cs with
      | none => none
      | some (a, b) => some (c :: a, b)

/-- Python `str.split(sep)`: splits on every occurrence of `sep`; the empty
string yields one empty field. -/
def splitSep (sep : Char) : List Char → List (List Char)
  | [] => [[]]
  | c :: cs =>
    let r := splitSep sep cs
    if c == sep then [] :: r
    else
      match r with
      | [] => [[c]]
      | h :: t => (c :: h) :: t

/-- Value of a hexadecimal digit, if any. -/
def hexDigit (c : Char) : Option Nat :=
  if '0' ≤ c ∧ c ≤ '9' then some (c.toNat - '0'.toNat)
  else if 'a' ≤ c ∧ c ≤ 'f' then some (c.toNat - 'a'.toNat + 10)
  else if 'A' ≤ c ∧ c ≤ 'F' then some (c.toNat - 'A'.toNat + 10)
  else none

/-- `urllib.parse.unquote_plus`: `+` becomes a space and `%hh` becomes the
character with that code.  (Python decodes consecutive escaped bytes as UTF-8;
this model is faithful for ASCII escapes, which cover the inputs the script
recognizes.)  An invalid escape leaves the `%` in place, as Python does. -/
def unquote_plus : List Char → List Char
  | [] => []
  | '+' :: rest => ' ' :: unquote_plus rest
  | '%' :: a :: b :: rest =>
    match hexDigit a, hexDigit b with
    | some ha, some hb => Char.ofNat (16 * ha + hb) :: unquote_plus rest
    | _, _ => '%' :: unquote_plus (a :: b :: rest)
  | c :: rest => c :: unquote_plus rest

/-- `urllib.parse.parse_qsl` with default options: the ordered list of
(name, value) pairs of a query string. -/
def parse_qsl (qs : List Char) : List (List Char × List Char) :=
  (splitSep '&' qs).filterMap fun field =>
    if field.isEmpty then none
    else
      match cutFirst '=' field with
      | none => none
      | some (n, v) => if v.isEmpty then none else some (unquote_plus n, unquote_plus v)

/-- `urllib.parse.parse_qs(qs)[key]`: the ordered list of values carried by
`key`; the empty list means the key is absent from the dict (a `KeyError` at
the subscript). -/
def parse_qs_get (key : List Char) (qs : List Char) : List (List Char) :=
  (parse_qsl qs).filterMap fun p => if p.1 = key then some p.2 else none

/-- `urllib.parse.urlparse(s).query`: cut the fragment at the first `#`, then
take what follows the first `?`. -/
def urlparse_query (s : List Char) : List Char :=
  let beforeFrag :=
    match cutFirst '#' s with
    | none => s
    | some (a, _) => a
  match cutFirst '?' beforeFrag with
  | none => []
  | some (_, q) => q

/-- The URL prefix recognized by `_youtube_get_playlist_id`. -/
def ytPlaylistUrlStart : List Char := "https://www.youtube.com/playlist".toList

/-- `_youtube_get_playlist_id` (lines 93-99): a URL starting with the
recognized prefix has its `list` query parameter extracted
(`parse_qs(...)["list"][0]`, a `KeyError` when the key is absent); any other
string is returned unchanged. -/
def youtube_get_playlist_id (s : String) : Except PyErr String :=
  if startsWithL ytPlaylistUrlStart s.toList then
    match parse_qs_get "list".toList (urlparse_query s.toList) with
    | [] => Except.error PyErr.keyError
    | v :: _ => Except.ok (String.mk v)
  else Except.ok s

/-! ## The two YouTube endpoints (lines 102-129) -/

/-- `_youtube_get_playlist_name` (lines 102-110): one `playlists` request;
returns `ret["items"][0]["snippet"]["title"]`, an `IndexError` when `items` is
empty.  The second component is the list of requests issued. -/
def youtube_get_playlist_name (sys : Sys) (k pid : String) :
    Except PyErr String × List Event :=
  (match (sys.playlists k pid).items with
   | [] => Except.error PyErr.indexError
   | x :: _ => Except.ok x.snippetTitle,
   [Event.ytPlaylists k pid])

/-- The `while ret.get("nextPageToken"):` loop of `_youtube_get_tracks`
(lines 124-127).  `ret.get` is truthy when the key is present with a non-empty
value.  `fuel` bounds the number of iterations; `none` means it ran out. -/
def ytTracksLoop (sys : Sys) (k pid : String) :
    Nat → YtItemsResp → List TrackItem → List Event →
    Option (List TrackItem × List Event)
  | fuel, ret, tracks, evs =>
    match ret.nextPageToken with
    | none => some (tracks, evs)
    | some t =>
      if t = "" then some (tracks, evs)
      else
        match fuel with
        | 0 => none
        | fuel + 1 =>
          let ret2 := sys.playlistItems k pid (some t)
          ytTracksLoop sys k pid fuel ret2 (tracks ++ ret2.items)
            (evs ++ [Event.ytPlaylistItems k pid (some t)])

/-- `_youtube_get_tracks` (lines 113-129): first request without a page token,
then the cursor-following loop, accumulating `ret["items"]` in order. -/
def youtube_get_tracks (sys : Sys) (k pid : String) (fuel : Nat) :
    Option (List TrackItem × List Event) :=
  let ret := sys.playlistItems k pid none
  ytTracksLoop sys k pid fuel ret ret.items [Event.ytPlaylistItems k pid none]

/-! ## The Spotify client (lines 132-170) -/

/-- `_spotify_search_track` (lines 132-140): one search request;
returns `ret["tracks"]["items"][0]["uri"]`, an `IndexError` when the result
list is empty. -/
def spotify_search_track (sys : Sys) (query : String) :
    Except PyErr String × List Event :=
  (match sys.searchTracks query with
   | [] => Except.error PyErr.indexError
   | x :: _ => Except.ok x.uri,
   [Event.spSearch query])

/-- `_spotify_create_playlist` (lines 143-156): a `/me` request for the user
id, then the create request with the given name; returns the new playlist id
from the response. -/
def spotify_create_playlist (sys : Sys) (nm : String) : String × List Event :=
  (sys.createPlaylistId, [Event.spMe, Event.spCreate sys.meId nm])

/-- `_spotify_add_to_playlist` (lines 159-170): one request adding the given
uris to the playlist. -/
def spotify_add_to_playlist (pl : String) (tracks : List String) : List Event :=
  [Event.spAdd pl tracks]

/-! ## Progress bar (lines 61-90)

`_progress_bar` is a generator: it yields each element of the sequence, and
after the loop executes `msg = base`, where `base` was assigned only inside
the loop body.  On an empty sequence the first resume therefore raises
`UnboundLocalError`.  The strings it draws are tracked only as the binding of
`base`; the `sys.stdout.write` calls are cosmetic and untracked.  Python
computes `int((i / total) * 40)` with float division; the model uses
`i * 40 / total` on `Nat`, which can differ only by float rounding noise in
the drawn string, never in control flow. -/

/-- `_crop` (lines 61-64). -/
def crop (s : String) (len : Nat) : String :=
  if s.length > len then s.take (len - 3) ++ "..." else s

/-- The bar glyph repeated in the progress line. -/
def barChar : Char := '━'

/-- The number of bar columns (`progress_columns = 40`). -/
def progressColumns : Nat := 40

/-- The `base` string built by one iteration of the progress loop
(lines 78-83), `i` counted from 1. -/
def renderBase (i total : Nat) : String :=
  let filled := i * progressColumns / total
  "\x0d    " ++ "\x1b[32;1m" ++ String.mk (List.replicate filled barChar) ++
    "\x1b[37;2m" ++ String.mk (List.replicate (progressColumns - filled) barChar) ++
    "\x1b[m  "

/-- The loop of the generator (lines 75-86): yields the elements in order and
threads the latest binding of `base` (`none` while still unbound). -/
def progressSteps {T : Type} (get : T → String) (total : Nat) :
    List T → Nat → Option String → List T × Option String
  | [], _, base => ([], base)
  | x :: xs, i, _ =>
    let base := renderBase i total
    let _msg := base ++ crop (get x) 40
    let r := progressSteps get total xs (i + 1) (some base)
    (x :: r.1, r.2)

/-- `_progress_bar` (lines 67-90) as consumed by a `for` loop: the list of
yielded elements, or the `UnboundLocalError` raised at `msg = base` when the
loop body never ran. -/
def progress_bar {T : Type} (get : T → String) (seq : List T) :
    Except PyErr (List T) :=
  let r := progressSteps get seq.length seq 1 none
  match r.2 with
  | none => Except.error PyErr.unboundLocal
  | some _ => Except.ok r.1

/-! ## The pipeline `_main` (lines 173-208) -/

/-- Python truthiness of `args.name or name` (line 196): the override when it
is present and non-empty, the fallback otherwise. -/
def pyOr (a : Option String) (b : String) : String :=
  match a with
  | none => b
  | some s => if s = "" then b else s

/-- The search loop of `_main` (lines 191-194): one search per track in order,
appending each resulting uri; the first empty search result raises
`IndexError` and stops the loop. -/
def searchLoop (sys : Sys) : List TrackItem → List String →
    Except PyErr (List String) × List Event
  | [], uris => (Except.ok uris, [])
  | t :: ts, uris =>
    match spotify_search_track sys t.snippetTitle with
    | (Except.error e, ev) => (Except.error e, ev)
    | (Except.ok uri, ev) =>
      let r := searchLoop sys ts (uris ++ [uri])
      (r.1, ev ++ r.2)

/-- The batching step of `_main` (lines 199-203): `range(0, len(uris), 100)`
has `(len + 99) / 100` iterations, and the slice `uris[start:end]` with
`end = min(start + 100, len)` is `(uris.drop start).take 100`. -/
def mainChunks {A : Type} (uris : List A) : List (List A) :=
  (List.range ((uris.length + 99) / 100)).map fun i => (uris.drop (100 * i)).take 100

/-- The append loop of `_main` (lines 199-203): one
`_spotify_add_to_playlist` call per chunk, in order. -/
def addLoop (pl : String) (uris : List String) : List Event :=
  ((mainChunks uris).map fun c => spotify_add_to_playlist pl c).flatten

/-- `_main` (lines 173-208) over a `Sys` environment and parsed `Args`:
the exit value (`Except.ok 0` on success, a raised exception otherwise) and
the ordered list of HTTP requests issued.  `fuel` bounds the pagination loop;
`none` means it ran out. -/
def main_model (sys : Sys) (args : Args) (fuel : Nat) :
    Option (Except PyErr Int × List Event) :=
  match sys.getenv "YOUTUBE_TOKEN" with
  | none => some (Except.error (PyErr.systemExit 1), [])
  | some ytTok =>
    match sys.getenv "SPOTIFY_TOKEN" with
    | none => some (Except.error (PyErr.systemExit 1), [])
    | some _spTok =>
      match youtube_get_playlist_id args.youtube_playlist with
      | Except.error e => some (Except.error e, [])
      | Except.ok pid =>
        let r1 := youtube_get_playlist_name sys ytTok pid
        match r1.1 with
        | Except.error e => some (Except.error e, r1.2)
        | Except.ok nm =>
          match youtube_get_tracks sys ytTok pid fuel with
          | none => none
          | some (tracks, evs2) =>
            match progress_bar (fun t => t.snippetTitle) tracks with
            | Except.error e => some (Except.error e, r1.2 ++ evs2)
            | Except.ok seq =>
              let r3 := searchLoop sys seq []
              match r3.1 with
              | Except.error e => some (Except.error e, r1.2 ++ evs2 ++ r3.2)
              | Except.ok uris =>
                let r4 := spotify_create_playlist sys (pyOr args.name nm)
                let evs5 := addLoop r4.1 uris
                some (Except.ok 0, r1.2 ++ evs2 ++ r3.2 ++ r4.2 ++ evs5)

/-- Process exit status of `raise SystemExit(_main())` (line 212):
`SystemExit(c)` exits with `c`, any other unhandled exception exits with 1. -/
def exitStatus : Except PyErr Int → Int
  | Except.ok n => n
  | Except.error (PyErr.systemExit c) => c
  | Except.error _ => 1

/-! ## Spec-side helpers and concrete environments used by the theorems -/

/-- A page chain for the pagination claim: starting from page `p`, the token
list and page list describe, in order, the cursor each page carries (present
and non-empty except on the last page) and the page the service returns for
that cursor. -/
def chainFrom (sys : Sys) (k pid : String) :
    YtItemsResp → List String → List YtItemsResp → Prop
  | p, [], [] => p.nextPageToken = none
  | p, t :: ts, q :: qs =>
    p.nextPageToken = some t ∧ t ≠ "" ∧ sys.playlistItems k pid (some t) = q ∧
      chainFrom sys k pid q ts qs
  | _, _, _ => False

/-- The uri of the top search result for a track title (defaulting to `""`,
which never occurs under the all-searches-succeed hypothesis). -/
def searchTopD (sys : Sys) (t : TrackItem) : String :=
  match sys.searchTracks t.snippetTitle with
  | [] => ""
  | x :: _ => x.uri

/-- The search requests the loop issues up to and including the first track
whose search comes back empty. -/
def searchEventsUntilFail (sys : Sys) : List TrackItem → List Event
  | [] => []
  | t :: ts =>
    Event.spSearch t.snippetTitle ::
      (match sys.searchTracks t.snippetTitle with
       | [] => []
       | _ :: _ => searchEventsUntilFail sys ts)

/-- Whether an event is a `playlistItems` request. -/
def isYtItemsEv : Event → Bool
  | Event.ytPlaylistItems _ _ _ => true
  | _ => false

/-- Whether an event belongs to `_spotify_create_playlist` or
`_spotify_add_to_playlist` (the destination-catalog write operations). -/
def isPlaylistWriteOp : Event → Bool
  | Event.spMe => true
  | Event.spCreate _ _ => true
  | Event.spAdd _ _ => true
  | _ => false

/-- The display name carried by a create-playlist event, if any. -/
def createName : Event → Option String
  | Event.spCreate _ n => some n
  | _ => none

/-- The names of all playlists created in a trace, in order. -/
def createdNames (evs : List Event) : List String :=
  evs.filterMap createName

/-- First `playlistItems` page of the demo playlist: tracks A and B, cursor
to page 2. -/
def demoPage1 : YtItemsResp := ⟨[⟨"A"⟩, ⟨"B"⟩], some "p2"⟩

/-- Second and last `playlistItems` page of the demo playlist: track C, no
cursor. -/
def demoPage2 : YtItemsResp := ⟨[⟨"C"⟩], none⟩

/-- A concrete environment realizing the three-track end-to-end scenario of
the spec: playlist "My Mix" with tracks A, B, C over two pages, each search
resolving to one uri. -/
def demoSys : Sys where
  getenv := fun n =>
    if n = "YOUTUBE_TOKEN" then some "yt"
    else if n = "SPOTIFY_TOKEN" then some "sp" else none
  playlists := fun _ _ => ⟨[⟨"My Mix"⟩]⟩
  playlistItems := fun _ _ tok =>
    match tok with
    | none => demoPage1
    | some t => if t = "p2" then demoPage2 else ⟨[], none⟩
  searchTracks := fun q =>
    if q = "A" then [⟨"spotify:track:1"⟩]
    else if q = "B" then [⟨"spotify:track:2"⟩]
    else if q = "C" then [⟨"spotify:track:3"⟩]
    else []
  meId := "user1"
  createPlaylistId := "sp-pl-1"

/-- The demo environment with the search for track B returning zero results. -/
def demoFailSys : Sys :=
  { demoSys with
    searchTracks := fun q =>
      if q = "A" then [⟨"spotify:track:1"⟩]
      else if q = "C" then [⟨"spotify:track:3"⟩]
      else [] }

/-- The demo environment with an empty `playlists` response. -/
def emptyMetaSys : Sys :=
  { demoSys with playlists := fun _ _ => ⟨[]⟩ }

/-- The demo environment with an empty source playlist (a single
`playlistItems` page with no items and no cursor). -/
def emptyPlaylistSys : Sys :=
  { demoSys with playlistItems := fun _ _ _ => ⟨[], none⟩ }

/-- An environment with no tokens set. -/
def noTokSys : Sys :=
  { demoSys with getenv := fun _ => none }

/-! ## Claims about playlist-reference resolution and metadata lookup -/

/-- C5: an input matching the recognized playlist-URL shape whose query
carries a `list` parameter resolves to that parameter's (first) value; an
input not matching the URL shape is returned unchanged. -/
theorem playlist_id_extraction (s : String) (v : List Char) (vs : List (List Char)) :
    (startsWithL ytPlaylistUrlStart s.toList = true →
      parse_qs_get "list".toList (urlparse_query s.toList) = v :: vs →
      youtube_get_playlist_id s = Except.ok (String.mk v)) ∧
    (startsWithL ytPlaylistUrlStart s.toList = false →
      youtube_get_playlist_id s = Except.ok s) := by
  constructor
  · intro h1 h2
    unfold youtube_get_playlist_id
    rw [h1, h2]
    simp
  · intro h1
    unfold youtube_get_playlist_id
    rw [h1]
    simp

/-- Witness for C5: a concrete URL input and a concrete raw-identifier
input. -/
theorem playlist_id_extraction_witness :
    youtube_get_playlist_id "https://www.youtube.com/playlist?list=PL123" =
      Except.ok (String.mk "PL123".toList) ∧
    youtube_get_playlist_id "PLraw" = Except.ok "PLraw" :=
  ⟨(playlist_id_extraction "https://www.youtube.com/playlist?list=PL123"
      "PL123".toList []).1 (by decide) (by decide),
   (playlist_id_extraction "PLraw" [] []).2 (by decide)⟩

/-- C10: an input with the recognized playlist-URL prefix whose query carries
no `list` parameter raises a `KeyError`. -/
theorem playlist_id_missing_list_param (s : String)
    (h1 : startsWithL ytPlaylistUrlStart s.toList = true)
    (h2 : parse_qs_get "list".toList (urlparse_query s.toList) = []) :
    youtube_get_playlist_id s = Except.error PyErr.keyError := by
  unfold youtube_get_playlist_id
  rw [h1, h2]
  simp

/-- Witness for C10: a URL input whose query has no `list` parameter. -/
theorem playlist_id_missing_list_param_witness :
    youtube_get_playlist_id "https://www.youtube.com/playlist?foo=1" =
      Except.error PyErr.keyError :=
  playlist_id_missing_list_param "https://www.youtube.com/playlist?foo=1"
    (by decide) (by decide)

/-- C9: `_youtube_get_playlist_name` returns the display title of the first
result item when one is present, and raises an `IndexError` when the response
carries zero items. -/
theorem playlist_name_first_item (sys : Sys) (k pid : String) :
    ((sys.playlists k pid).items = [] →
      (youtube_get_playlist_name sys k pid).1 = Except.error PyErr.indexError) ∧
    (∀ x rest, (sys.playlists k pid).items = x :: rest →
      (youtube_get_playlist_name sys k pid).1 = Except.ok x.snippetTitle) := by
  constructor
  · intro h
    simp [youtube_get_playlist_name, h]
  · intro x rest h
    simp [youtube_get_playlist_name, h]

/-- Witness for C9: the demo playlist metadata and an empty metadata
response. -/
theorem playlist_name_first_item_witness :
    (youtube_get_playlist_name demoSys "yt" "PL123").1 = Except.ok "My Mix" ∧
    (youtube_get_playlist_name emptyMetaSys "yt" "PL123").1 =
      Except.error PyErr.indexError :=
  ⟨(playlist_name_first_item demoSys "yt" "PL123").2 ⟨"My Mix"⟩ [] rfl,
   (playlist_name_first_item emptyMetaSys "yt" "PL123").1 rfl⟩

/-- C6: when either required token variable is unset, the run exits with
status 1 and issues zero HTTP requests. -/
theorem missing_token_exits (sys : Sys) (args : Args) (fuel : Nat)
    (h : sys.getenv "YOUTUBE_TOKEN" = none ∨ sys.getenv "SPOTIFY_TOKEN" = none) :
    main_model sys args fuel = some (Except.error (PyErr.systemExit 1), []) ∧
    exitStatus (Except.error (PyErr.systemExit 1)) = 1 := by
  refine ⟨?_, rfl⟩
  rcases h with h | h
  · simp [main_model, h]
  · cases hyt : sys.getenv "YOUTUBE_TOKEN" with
    | none => simp [main_model, hyt]
    | some v => simp [main_model, hyt, h]

/-- Witness for C6: an environment with no tokens set. -/
theorem missing_token_exits_witness :
    main_model noTokSys ⟨"PL123", none⟩ 5 =
      some (Except.error (PyErr.systemExit 1), []) ∧
    exitStatus (Except.error (PyErr.systemExit 1)) = 1 :=
  missing_token_exits noTokSys ⟨"PL123", none⟩ 5 (Or.inl rfl)

/-! ## The batching step -/

/-- Flattening singleton blocks is mapping. -/
theorem flatten_map_singleton {A B : Type} (f : A → B) :
    ∀ (l : List A), (l.map fun a => [f a]).flatten = l.map f := by
  intro l
  induction l with
  | nil => rfl
  | cons x xs ih => simp [ih]

/-- One step of the batching loop: a non-empty list yields its first 100
elements as the first chunk, then the chunks of the rest. -/
theorem mainChunks_step {A : Type} (l : List A) (h : l ≠ []) :
    mainChunks l = l.take 100 :: mainChunks (l.drop 100) := by
  have hn : 0 < l.length := List.length_pos.mpr h
  have hcount : (l.length + 99) / 100 = ((l.drop 100).length + 99) / 100 + 1 := by
    rw [List.length_drop]
    omega
  unfold mainChunks
  rw [hcount, List.range_succ_eq_map, List.map_cons, List.map_map]
  refine congrArg₂ List.cons (by simp) (List.map_congr_left fun a _ => ?_)
  simp only [Function.comp_apply]
  rw [List.drop_drop]
  have hidx : 100 * (a + 1) = 100 + 100 * a := by ring
  rw [hidx]

/-- The chunks concatenate back to the original list (induction on a length
bound). -/
theorem mainChunks_flatten_aux {A : Type} :
    ∀ (n : Nat) (l : List A), l.length ≤ n → (mainChunks l).flatten = l := by
  intro n
  induction n with
  | zero =>
    intro l hl
    have : l = [] := List.eq_nil_of_length_eq_zero (Nat.le_zero.mp hl)
    subst this
    simp [mainChunks]
  | succ n ih =>
    intro l hl
    by_cases hnil : l = []
    · subst hnil
      simp [mainChunks]
    · rw [mainChunks_step l hnil]
      have hlen : (l.drop 100).length ≤ n := by
        rw [List.length_drop]
        have : 0 < l.length := List.length_pos.mpr hnil
        omega
      simp [ih (l.drop 100) hlen, List.take_append_drop]

/-- The chunks concatenate back to the original list. -/
theorem mainChunks_flatten {A : Type} (l : List A) : (mainChunks l).flatten = l :=
  mainChunks_flatten_aux l.length l le_rfl

/-- The chunk sizes depend only on the length of the list. -/
theorem mainChunks_map_length {A : Type} (l : List A) :
    (mainChunks l).map List.length =
      (List.range ((l.length + 99) / 100)).map fun i => min 100 (l.length - 100 * i) := by
  unfold mainChunks
  rw [List.map_map]
  refine List.map_congr_left fun a _ => ?_
  simp [List.length_take, List.length_drop]

/-- C2: the batching step of `_main` covers the identifier list with
contiguous chunks in original order (their concatenation is the list), each
chunk at most 100 long; the append loop issues exactly one append request per
chunk, in order; 250 identifiers yield chunk sizes 100, 100, 50; zero
identifiers yield no append call. -/
theorem append_batches (pl : String) (l : List String) :
    (mainChunks l).flatten = l ∧
    ((mainChunks l).all fun c => c.length ≤ 100) = true ∧
    addLoop pl l = (mainChunks l).map (fun c => Event.spAdd pl c) ∧
    (mainChunks (List.replicate 250 "x")).map List.length = [100, 100, 50] ∧
    mainChunks ([] : List String) = [] ∧
    addLoop pl [] = [] := by
  have h250 : (mainChunks (List.replicate 250 "x")).map List.length = [100, 100, 50] := by
    rw [mainChunks_map_length]
    simp only [List.length_replicate]
    decide
  have hnil : mainChunks ([] : List String) = [] := by simp [mainChunks]
  refine ⟨mainChunks_flatten l, ?_, ?_, h250, hnil, by simp [addLoop, hnil]⟩
  · rw [List.all_eq_true]
    intro c hc
    simp only [mainChunks, List.mem_map, List.mem_range] at hc
    obtain ⟨i, _, rfl⟩ := hc
    simp [List.length_take]
  · unfold addLoop spotify_add_to_playlist
    exact flatten_map_singleton (fun c => Event.spAdd pl c) (mainChunks l)

/-! ## Pagination -/

/-- The cursor-following loop consumes a well-formed page chain: it appends
every page's items in order and issues exactly one request per followed
cursor. -/
theorem ytTracksLoop_chain (sys : Sys) (k pid : String) :
    ∀ (qs : List YtItemsResp) (ts : List String) (p : YtItemsResp)
      (acc : List TrackItem) (evs : List Event) (fuel : Nat),
      chainFrom sys k pid p ts qs → qs.length ≤ fuel →
      ytTracksLoop sys k pid fuel p acc evs =
        some (acc ++ (qs.map YtItemsResp.items).flatten,
          evs ++ ts.map fun t => Event.ytPlaylistItems k pid (some t)) := by
  intro qs
  induction qs with
  | nil =>
    intro ts p acc evs fuel hchain _
    cases ts with
    | nil =>
      have hnone : p.nextPageToken = none := hchain
      unfold ytTracksLoop
      rw [hnone]
      simp
    | cons t ts => exact absurd hchain (by simp [chainFrom])
  | cons q qs ih =>
    intro ts p acc evs fuel hchain hfuel
    cases ts with
    | nil => exact absurd hchain (by simp [chainFrom])
    | cons t ts =>
      obtain ⟨ht, htne, hsvc, hrest⟩ := hchain
      cases fuel with
      | zero => simp at hfuel
      | succ f =>
        unfold ytTracksLoop
        rw [ht]
        dsimp only
        rw [if_neg htne]
        rw [hsvc]
        rw [ih ts q (acc ++ q.items)
          (evs ++ [Event.ytPlaylistItems k pid (some t)]) f hrest
          (by simpa using hfuel)]
        simp

/-- C1: for a finite page chain in which every page but the last carries a
non-empty cursor and the last carries none, `_youtube_get_tracks` returns the
concatenation of all pages' item lists in page order, issuing exactly one
request per page: the cursorless first request, then one request per followed
cursor, in order. -/
theorem get_all_tracks_pagination (sys : Sys) (k pid : String) (p : YtItemsResp)
    (ts : List String) (qs : List YtItemsResp) (fuel : Nat)
    (hfirst : sys.playlistItems k pid none = p)
    (hchain : chainFrom sys k pid p ts qs)
    (hfuel : qs.length ≤ fuel) :
    youtube_get_tracks sys k pid fuel =
      some (p.items ++ (qs.map YtItemsResp.items).flatten,
        Event.ytPlaylistItems k pid none ::
          ts.map fun t => Event.ytPlaylistItems k pid (some t)) := by
  unfold youtube_get_tracks
  rw [hfirst]
  rw [ytTracksLoop_chain sys k pid qs ts p p.items
    [Event.ytPlaylistItems k pid none] fuel hchain hfuel]
  simp

/-- Witness for C1: the demo playlist has two pages (A, B then C) linked by
the cursor p2; the fetch returns A, B, C with one request per page. -/
theorem get_all_tracks_pagination_witness :
    youtube_get_tracks demoSys "yt" "PL123" 1 =
      some ([⟨"A"⟩, ⟨"B"⟩, ⟨"C"⟩],
        [Event.ytPlaylistItems "yt" "PL123" none,
         Event.ytPlaylistItems "yt" "PL123" (some "p2")]) := by
  have hchain : chainFrom demoSys "yt" "PL123" demoPage1 ["p2"] [demoPage2] :=
    ⟨rfl, by decide, rfl, rfl⟩
  simpa using
    get_all_tracks_pagination demoSys "yt" "PL123" demoPage1 ["p2"] [demoPage2] 1
      rfl hchain (by decide)

/-! ## Progress bar behavior -/

/-- The generator yields exactly the elements of the sequence, in order. -/
theorem progressSteps_fst {T : Type} (get : T → String) (total : Nat) :
    ∀ (xs : List T) (i : Nat) (b : Option String),
      (progressSteps get total xs i b).1 = xs := by
  intro xs
  induction xs with
  | nil => intro i b; rfl
  | cons x xs ih => intro i b; simp [progressSteps, ih]

/-- After at least one iteration, `base` is bound. -/
theorem progressSteps_snd_some {T : Type} (get : T → String) (total : Nat) :
    ∀ (xs : List T) (i : Nat) (b : Option String), xs ≠ [] →
      ∃ s, (progressSteps get total xs i b).2 = some s := by
  intro xs
  induction xs with
  | nil => intro i b h; exact absurd rfl h
  | cons x xs ih =>
    intro i b _
    by_cases hxs : xs = []
    · subst hxs
      exact ⟨renderBase i total, rfl⟩
    · obtain ⟨s, hs⟩ := ih (i + 1) (some (renderBase i total)) hxs
      exact ⟨s, by simp [progressSteps, hs]⟩

/-- On a non-empty sequence the progress wrapper is transparent: it yields the
sequence unchanged and raises nothing. -/
theorem progress_bar_ok {T : Type} (get : T → String) (seq : List T)
    (h : seq ≠ []) : progress_bar get seq = Except.ok seq := by
  obtain ⟨s, hs⟩ := progressSteps_snd_some get seq.length seq 1 none h
  simp [progress_bar, hs, progressSteps_fst]

/-- The list of uris created in a run, read off the trace. -/
def mainCreatedNames (sys : Sys) (args : Args) (fuel : Nat) : List String :=
  match main_model sys args fuel with
  | some (_, evs) => createdNames evs
  | none => []

/-- C8 (code bug): on an empty fetched track sequence, `_progress_bar` raises
`UnboundLocalError` at `msg = base` because `base` was never assigned, so the
wrapper is not free of control-flow impact: the whole run aborts before any
search, playlist creation or append.  The second conjunct evaluates the
pipeline on an empty source playlist. -/
theorem progress_bar_empty_crash :
    progress_bar (fun t : TrackItem => t.snippetTitle) ([] : List TrackItem) =
      Except.error PyErr.unboundLocal ∧
    main_model emptyPlaylistSys ⟨"PL123", none⟩ 0 =
      some (Except.error PyErr.unboundLocal,
        [Event.ytPlaylists "yt" "PL123", Event.ytPlaylistItems "yt" "PL123" none]) :=
  ⟨rfl, rfl⟩

/-! ## The search loop -/

/-- When every search succeeds, the loop returns the accumulated uris followed
by the top result of each track's search, in order, with one search request
per track. -/
theorem searchLoop_ok (sys : Sys) :
    ∀ (ts : List TrackItem) (acc : List String),
      (∀ t ∈ ts, sys.searchTracks t.snippetTitle ≠ []) →
      searchLoop sys ts acc =
        (Except.ok (acc ++ ts.map (searchTopD sys)),
          ts.map fun t => Event.spSearch t.snippetTitle) := by
  intro ts
  induction ts with
  | nil => intro acc _; simp [searchLoop]
  | cons t ts ih =>
    intro acc h
    have ht := h t (List.mem_cons_self t ts)
    cases hst : sys.searchTracks t.snippetTitle with
    | nil => exact absurd hst ht
    | cons x xs =>
      have hrest : ∀ u ∈ ts, sys.searchTracks u.snippetTitle ≠ [] :=
        fun u hu => h u (List.mem_cons_of_mem t hu)
      simp only [searchLoop, spotify_search_track, hst]
      rw [ih (acc ++ [x.uri]) hrest]
      simp [searchTopD, hst]

/-- When some search comes back empty, the loop raises `IndexError` after
having issued exactly the searches up to and including the first failing
track. -/
theorem searchLoop_err (sys : Sys) :
    ∀ (ts : List TrackItem) (acc : List String),
      (∃ t ∈ ts, sys.searchTracks t.snippetTitle = []) →
      searchLoop sys ts acc =
        (Except.error PyErr.indexError, searchEventsUntilFail sys ts) := by
  intro ts
  induction ts with
  | nil => intro acc h; simp at h
  | cons t ts ih =>
    intro acc h
    cases hst : sys.searchTracks t.snippetTitle with
    | nil => simp [searchLoop, spotify_search_track, hst, searchEventsUntilFail]
    | cons x xs =>
      have hrest : ∃ u ∈ ts, sys.searchTracks u.snippetTitle = [] := by
        obtain ⟨u, hu, hue⟩ := h
        rcases List.mem_cons.mp hu with rfl | hu2
        · rw [hst] at hue
          exact absurd hue (by simp)
        · exact ⟨u, hu2, hue⟩
      simp only [searchLoop, spotify_search_track, hst]
      rw [ih (acc ++ [x.uri]) hrest]
      simp [searchEventsUntilFail, hst]

/-- C4: for a non-empty track sequence whose searches all succeed, the
collected identifier sequence is exactly the per-position top search result
of each track's title, hence of the same length and order as the tracks. -/
theorem resolved_ids_match_tracks (sys : Sys) (ts : List TrackItem)
    (_h1 : ts ≠ [])
    (h2 : ∀ t ∈ ts, sys.searchTracks t.snippetTitle ≠ []) :
    searchLoop sys ts [] =
      (Except.ok (ts.map (searchTopD sys)),
        ts.map fun t => Event.spSearch t.snippetTitle) ∧
    (ts.map (searchTopD sys)).length = ts.length := by
  refine ⟨?_, by simp⟩
  simpa using searchLoop_ok sys ts [] h2

/-- Witness for C4: the three demo tracks resolve to the three demo uris in
order. -/
theorem resolved_ids_match_tracks_witness :
    searchLoop demoSys [⟨"A"⟩, ⟨"B"⟩, ⟨"C"⟩] [] =
      (Except.ok ["spotify:track:1", "spotify:track:2", "spotify:track:3"],
        [Event.spSearch "A", Event.spSearch "B", Event.spSearch "C"]) ∧
    (([⟨"A"⟩, ⟨"B"⟩, ⟨"C"⟩] : List TrackItem).map (searchTopD demoSys)).length =
      ([⟨"A"⟩, ⟨"B"⟩, ⟨"C"⟩] : List TrackItem).length := by
  have h := resolved_ids_match_tracks demoSys [⟨"A"⟩, ⟨"B"⟩, ⟨"C"⟩]
    (by decide) (by decide)
  exact h

/-! ## Shape of the traces of the individual phases -/

/-- Every request the pagination loop adds to the trace is a `playlistItems`
request. -/
theorem ytTracksLoop_evs_items (sys : Sys) (k pid : String) :
    ∀ (fuel : Nat) (ret : YtItemsResp) (acc : List TrackItem) (evs : List Event)
      (res : List TrackItem × List Event),
      ytTracksLoop sys k pid fuel ret acc evs = some res →
      evs.all isYtItemsEv = true → res.2.all isYtItemsEv = true := by
  intro fuel
  induction fuel with
  | zero =>
    intro ret acc evs res h hall
    unfold ytTracksLoop at h
    cases hret : ret.nextPageToken with
    | none =>
      rw [hret] at h
      simp only [Option.some.injEq] at h
      rw [← h]
      exact hall
    | some t =>
      rw [hret] at h
      dsimp only at h
      by_cases ht : t = ""
      · rw [if_pos ht] at h
        simp only [Option.some.injEq] at h
        rw [← h]
        exact hall
      · rw [if_neg ht] at h
        exact absurd h (by simp)
  | succ f ih =>
    intro ret acc evs res h hall
    unfold ytTracksLoop at h
    cases hret : ret.nextPageToken with
    | none =>
      rw [hret] at h
      simp only [Option.some.injEq] at h
      rw [← h]
      exact hall
    | some t =>
      rw [hret] at h
      dsimp only at h
      by_cases ht : t = ""
      · rw [if_pos ht] at h
        simp only [Option.some.injEq] at h
        rw [← h]
        exact hall
      · rw [if_neg ht] at h
        exact ih _ _ _ _ h (by simp [List.all_append, hall, isYtItemsEv])

/-- Every request `_youtube_get_tracks` issues is a `playlistItems`
request. -/
theorem youtube_get_tracks_evs_items (sys : Sys) (k pid : String) (fuel : Nat)
    (tracks : List TrackItem) (evs : List Event)
    (h : youtube_get_tracks sys k pid fuel = some (tracks, evs)) :
    evs.all isYtItemsEv = true := by
  simp only [youtube_get_tracks] at h
  exact ytTracksLoop_evs_items sys k pid fuel _ _ _ (tracks, evs) h
    (by simp [isYtItemsEv])

/-- `playlistItems` requests are not destination-write requests. -/
theorem items_evs_not_write (evs : List Event)
    (h : evs.all isYtItemsEv = true) :
    (evs.all fun e => !isPlaylistWriteOp e) = true := by
  rw [List.all_eq_true] at h ⊢
  intro e he
  have ht := h e he
  cases e with
  | ytPlaylistItems a b c => simp [isPlaylistWriteOp]
  | ytPlaylists a b => simp [isYtItemsEv] at ht
  | spSearch q => simp [isYtItemsEv] at ht
  | spMe => simp [isYtItemsEv] at ht
  | spCreate a b => simp [isYtItemsEv] at ht
  | spAdd a b => simp [isYtItemsEv] at ht

/-- A trace of `playlistItems` requests creates no playlist. -/
theorem items_evs_createdNames (evs : List Event)
    (h : evs.all isYtItemsEv = true) : createdNames evs = [] := by
  induction evs with
  | nil => rfl
  | cons e evs ih =>
    simp only [List.all_cons, Bool.and_eq_true] at h
    obtain ⟨he, hall⟩ := h
    cases e with
    | ytPlaylistItems a b c =>
      unfold createdNames at ih ⊢
      rw [List.filterMap_cons]
      simp only [createName]
      exact ih hall
    | ytPlaylists a b => simp [isYtItemsEv] at he
    | spSearch q => simp [isYtItemsEv] at he
    | spMe => simp [isYtItemsEv] at he
    | spCreate a b => simp [isYtItemsEv] at he
    | spAdd a b => simp [isYtItemsEv] at he

/-- The requests issued by a failing search phase are all searches, never
destination writes. -/
theorem searchEvs_not_write (sys : Sys) :
    ∀ (ts : List TrackItem),
      ((searchEventsUntilFail sys ts).all fun e => !isPlaylistWriteOp e) = true := by
  intro ts
  induction ts with
  | nil => rfl
  | cons t ts ih =>
    cases hst : sys.searchTracks t.snippetTitle with
    | nil => simp [searchEventsUntilFail, hst, isPlaylistWriteOp]
    | cons x xs =>
      simp only [searchEventsUntilFail, hst, List.all_cons]
      rw [ih]
      simp [isPlaylistWriteOp]

/-- Search requests create no playlist. -/
theorem createdNames_spSearch_map (ts : List TrackItem) :
    createdNames (ts.map fun t => Event.spSearch t.snippetTitle) = [] := by
  induction ts with
  | nil => rfl
  | cons t ts ih => simp [createdNames, createName, ih]

/-- Append requests create no playlist. -/
theorem createdNames_addLoop (pl : String) (uris : List String) :
    createdNames (addLoop pl uris) = [] := by
  unfold addLoop spotify_add_to_playlist
  rw [flatten_map_singleton]
  induction mainChunks uris with
  | nil => rfl
  | cons c cs _ => simp [createdNames, createName]

/-- `createdNames` distributes over trace concatenation. -/
theorem createdNames_append (a b : List Event) :
    createdNames (a ++ b) = createdNames a ++ createdNames b := by
  simp [createdNames, List.filterMap_append]

/-! ## Main-pipeline claims -/

/-- C3: when some track's search returns zero results, the run raises
`IndexError` during the search phase; its trace consists of the metadata
request, the pagination requests and the searches up to the failure, and
contains no playlist-creation or append request (no destination-catalog
write). -/
theorem search_failure_aborts (sys : Sys) (args : Args) (fuel : Nat)
    (yt sp pid nm : String) (tracks : List TrackItem) (evs2 : List Event)
    (hyt : sys.getenv "YOUTUBE_TOKEN" = some yt)
    (hsp : sys.getenv "SPOTIFY_TOKEN" = some sp)
    (hpid : youtube_get_playlist_id args.youtube_playlist = Except.ok pid)
    (hnm : (youtube_get_playlist_name sys yt pid).1 = Except.ok nm)
    (htr : youtube_get_tracks sys yt pid fuel = some (tracks, evs2))
    (hfail : ∃ t ∈ tracks, sys.searchTracks t.snippetTitle = []) :
    main_model sys args fuel =
      some (Except.error PyErr.indexError,
        Event.ytPlaylists yt pid :: (evs2 ++ searchEventsUntilFail sys tracks)) ∧
    ((Event.ytPlaylists yt pid ::
        (evs2 ++ searchEventsUntilFail sys tracks)).all
      fun e => !isPlaylistWriteOp e) = true := by
  have htrne : tracks ≠ [] := by
    obtain ⟨t, ht, _⟩ := hfail
    exact List.ne_nil_of_mem ht
  constructor
  · simp only [main_model, hyt, hsp, hpid, htr, progress_bar_ok _ tracks htrne,
      searchLoop_err sys tracks [] hfail, hnm]
    simp [youtube_get_playlist_name]
  · simp only [List.all_cons, List.all_append, Bool.and_eq_true]
    refine ⟨by simp [isPlaylistWriteOp], ?_, ?_⟩
    · exact items_evs_not_write evs2 (youtube_get_tracks_evs_items sys yt pid fuel tracks evs2 htr)
    · exact searchEvs_not_write sys tracks

/-- Witness for C3: in the demo environment with the search for B empty, the
run fails with `IndexError` after searching A and B, never reaching `/me`,
playlist creation or append. -/
theorem search_failure_aborts_witness :
    main_model demoFailSys ⟨"PL123", none⟩ 1 =
      some (Except.error PyErr.indexError,
        Event.ytPlaylists "yt" "PL123" ::
          ([Event.ytPlaylistItems "yt" "PL123" none,
            Event.ytPlaylistItems "yt" "PL123" (some "p2")] ++
            searchEventsUntilFail demoFailSys [⟨"A"⟩, ⟨"B"⟩, ⟨"C"⟩])) ∧
    ((Event.ytPlaylists "yt" "PL123" ::
        ([Event.ytPlaylistItems "yt" "PL123" none,
          Event.ytPlaylistItems "yt" "PL123" (some "p2")] ++
          searchEventsUntilFail demoFailSys [⟨"A"⟩, ⟨"B"⟩, ⟨"C"⟩])).all
      fun e => !isPlaylistWriteOp e) = true :=
  search_failure_aborts demoFailSys ⟨"PL123", none⟩ 1 "yt" "sp" "PL123" "My Mix"
    [⟨"A"⟩, ⟨"B"⟩, ⟨"C"⟩]
    [Event.ytPlaylistItems "yt" "PL123" none,
     Event.ytPlaylistItems "yt" "PL123" (some "p2")]
    rfl rfl rfl rfl rfl ⟨⟨"B"⟩, by simp, rfl⟩

/-- C7 (amended): a run whose every phase succeeds creates exactly one
destination playlist, named `args.name or name` in Python terms (`pyOr`): the
override when one was supplied and non-empty, and the source playlist's
display name when the override is absent or is the empty string. -/
theorem playlist_created_name (sys : Sys) (args : Args) (fuel : Nat)
    (yt sp pid nm s : String) (tracks : List TrackItem) (evs2 : List Event)
    (hyt : sys.getenv "YOUTUBE_TOKEN" = some yt)
    (hsp : sys.getenv "SPOTIFY_TOKEN" = some sp)
    (hpid : youtube_get_playlist_id args.youtube_playlist = Except.ok pid)
    (hnm : (youtube_get_playlist_name sys yt pid).1 = Except.ok nm)
    (htr : youtube_get_tracks sys yt pid fuel = some (tracks, evs2))
    (htrne : tracks ≠ [])
    (hok : ∀ t ∈ tracks, sys.searchTracks t.snippetTitle ≠ [])
    (hs : s ≠ "") :
    main_model sys args fuel =
      some (Except.ok 0,
        Event.ytPlaylists yt pid ::
          (evs2 ++ ((tracks.map fun t => Event.spSearch t.snippetTitle) ++
            ([Event.spMe, Event.spCreate sys.meId (pyOr args.name nm)] ++
              addLoop sys.createPlaylistId (tracks.map (searchTopD sys)))))) ∧
    createdNames
      (Event.ytPlaylists yt pid ::
        (evs2 ++ ((tracks.map fun t => Event.spSearch t.snippetTitle) ++
          ([Event.spMe, Event.spCreate sys.meId (pyOr args.name nm)] ++
            addLoop sys.createPlaylistId (tracks.map (searchTopD sys)))))) =
      [pyOr args.name nm] ∧
    pyOr (some s) nm = s ∧
    pyOr none nm = nm ∧
    pyOr (some "") nm = nm := by
  refine ⟨?_, ?_, ?_, rfl, by simp [pyOr]⟩
  · simp only [main_model, hyt, hsp, hpid, htr, progress_bar_ok _ tracks htrne,
      searchLoop_ok sys tracks [] hok, hnm]
    simp [youtube_get_playlist_name, spotify_create_playlist]
  · have hyt2 := items_evs_createdNames evs2
      (youtube_get_tracks_evs_items sys yt pid fuel tracks evs2 htr)
    show createdNames ([Event.ytPlaylists yt pid] ++ (evs2 ++ _)) = _
    rw [createdNames_append, createdNames_append, createdNames_append,
      createdNames_append]
    rw [hyt2, createdNames_spSearch_map, createdNames_addLoop]
    simp [createdNames, createName]
  · simp [pyOr, hs]

/-- Witness for C7: the demo run with the non-empty override "Mix2" creates
one playlist named "Mix2". -/
theorem playlist_created_name_witness :
    main_model demoSys ⟨"PL123", some "Mix2"⟩ 1 =
      some (Except.ok 0,
        Event.ytPlaylists "yt" "PL123" ::
          ([Event.ytPlaylistItems "yt" "PL123" none,
            Event.ytPlaylistItems "yt" "PL123" (some "p2")] ++
            ((([⟨"A"⟩, ⟨"B"⟩, ⟨"C"⟩] : List TrackItem).map
                fun t => Event.spSearch t.snippetTitle) ++
              ([Event.spMe,
                Event.spCreate demoSys.meId (pyOr (some "Mix2") "My Mix")] ++
                addLoop demoSys.createPlaylistId
                  (([⟨"A"⟩, ⟨"B"⟩, ⟨"C"⟩] : List TrackItem).map
                    (searchTopD demoSys)))))) ∧
    createdNames
      (Event.ytPlaylists "yt" "PL123" ::
        ([Event.ytPlaylistItems "yt" "PL123" none,
          Event.ytPlaylistItems "yt" "PL123" (some "p2")] ++
          ((([⟨"A"⟩, ⟨"B"⟩, ⟨"C"⟩] : List TrackItem).map
              fun t => Event.spSearch t.snippetTitle) ++
            ([Event.spMe,
              Event.spCreate demoSys.meId (pyOr (some "Mix2") "My Mix")] ++
              addLoop demoSys.createPlaylistId
                (([⟨"A"⟩, ⟨"B"⟩, ⟨"C"⟩] : List TrackItem).map
                  (searchTopD demoSys)))))) =
      [pyOr (some "Mix2") "My Mix"] ∧
    pyOr (some "Mix2") "My Mix" = "Mix2" ∧
    pyOr none "My Mix" = "My Mix" ∧
    pyOr (some "") "My Mix" = "My Mix" :=
  playlist_created_name demoSys ⟨"PL123", some "Mix2"⟩ 1 "yt" "sp" "PL123"
    "My Mix" "Mix2" [⟨"A"⟩, ⟨"B"⟩, ⟨"C"⟩]
    [Event.ytPlaylistItems "yt" "PL123" none,
     Event.ytPlaylistItems "yt" "PL123" (some "p2")]
    rfl rfl rfl rfl rfl (by simp) (by decide) (by decide)

/-- Counterexample for C7 as stated: with the explicitly supplied empty
override name the playlist is created with the source name "My Mix", not with
the supplied empty string. -/
theorem override_empty_name_counterexample :
    mainCreatedNames demoSys ⟨"PL123", some ""⟩ 1 = ["My Mix"] ∧
    ("My Mix" : String) ≠ "" := ⟨rfl, by decide⟩
